import Mathlib

/-
Verification of the oscilloscope screen-capture utility (`scope_capture.py`)
against its specification. The program is shallowly embedded: the
configuration store is an ordered key/value association list (the `config`
section of the `configparser` object) together with a model of the file on
disk, of the interpolation checks `configparser` applies on set and get, and
of the whitespace normalization it applies on read; the VISA transport is
modelled as a trace of operations over a stubbed session; each GUI callback
becomes a pure state-transition function. Python exceptions become explicit
error results.
-/

set_option autoImplicit false

namespace ScopeCapture

/-- Image payload bytes (a Python `bytes` value). -/
abbrev Bytes := List Nat

/-- The `config` section of the `configparser` object: an insertion-ordered
list of key/value pairs, keys unique (as in a Python dict). The keys this
program uses are lowercase, so `optionxform` (lowercasing of keys) is the
identity on them and is not modelled. -/
abbrev ConfigData := List (String × String)

/-- Dictionary lookup `cfg['config'][k]` on the raw stored values: the value
at the first matching key, `none` when the key is absent (Python raises
`KeyError`). -/
def lookupKey (cfg : ConfigData) (k : String) : Option String :=
  match cfg with
  | [] => none
  | (k', v) :: t => if k' == k then some v else lookupKey t k

/-- Raw dictionary update: replace the value at an existing key in place, or
append a new entry (Python 3.7+ dict semantics). -/
def setKey (cfg : ConfigData) (k v : String) : ConfigData :=
  match cfg with
  | [] => [(k, v)]
  | (k', v') :: t => if k' == k then (k, v) :: t else (k', v') :: setKey t k v

/-- The defaults written by `initial_config` when the file is missing
(scope_capture.py line 31). -/
def defaultConfig : ConfigData :=
  [("background", "WHITE"),
   ("imagepath", "C:\\Users\\Public\\Pictures"),
   ("imagename", "screencapture.jpeg"),
   ("instrumentaddr", "USB0::TEMPLATE")]

/-- State of `scopecaptureconfig.ini` on disk: `missing` when no such file
exists, `present sections` when the file exists and parses into the given
sections with their raw serialized values. An existing empty file parses
into no sections (`present []`). -/
inductive ConfigFile where
  | missing
  | present (sections : List (String × ConfigData))
deriving DecidableEq, Repr

/-- Embeds `save_config`: `config.write(open(filepath,'w'))` overwrites the
file with the serialized parser content — the single section `config`
holding the settings' raw values. A written file holds at least the
`[config]` header, so it exists afterwards. -/
def save_config (cfg : ConfigData) : ConfigFile :=
  ConfigFile.present [("config", cfg)]

/-- Modelled from `str.replace('%%', '')`, the first step of
BasicInterpolation.before_set: remove escaped percent pairs, scanning left
to right. -/
def dropEscapedPercents : List Char → List Char
  | [] => []
  | [c] => [c]
  | c :: d :: rest =>
    if c = '%' ∧ d = '%' then dropEscapedPercents rest
    else c :: dropEscapedPercents (d :: rest)

/-- Scanner state for the stray-percent check of
BasicInterpolation.before_set (after escaped `%%` pairs are removed): a `%`
is acceptable only as the start of a `%(name)s` reference with a nonempty
name containing no `)`. -/
inductive PctState where
  | normal
  | afterPct
  | refStart
  | refBody
  | refClose
deriving BEq, DecidableEq, Repr

/-- One step of the stray-percent scanner. -/
def pctStep (st : PctState) (c : Char) : Option PctState :=
  match st with
  | PctState.normal => if c = '%' then some PctState.afterPct else some PctState.normal
  | PctState.afterPct => if c = '(' then some PctState.refStart else none
  | PctState.refStart => if c = ')' then none else some PctState.refBody
  | PctState.refBody => if c = ')' then some PctState.refClose else some PctState.refBody
  | PctState.refClose => if c = 's' then some PctState.normal else none

/-- Run the stray-percent scanner; `true` when every `%` belongs to a
well-formed `%(name)s` reference. -/
def pctScan : PctState → List Char → Bool
  | st, [] => st == PctState.normal
  | st, c :: rest =>
    match pctStep st c with
    | none => false
    | some st2 => pctScan st2 rest

/-- Modelled from BasicInterpolation.before_set: remove escaped `%%` pairs,
then every remaining `%` must start a well-formed `%(name)s` reference,
otherwise the set raises ValueError. -/
def before_set_ok (v : String) : Bool :=
  pctScan PctState.normal (dropEscapedPercents v.toList)

/-- Embeds `change_config`: `config['config'][key] = val` routes through
`parser.set`, whose BasicInterpolation.before_set validates the value —
a stray `%` (one not forming `%%` or a `%(name)s` reference) raises
ValueError and nothing is stored; otherwise the in-memory mapping is
updated in place. No file write occurs either way. -/
def change_config (cfg : ConfigData) (key val : String) : Except String ConfigData :=
  if before_set_ok val then Except.ok (setKey cfg key val)
  else Except.error "ValueError"

/-- ASCII whitespace stripped by Python `str.strip` within one line of a
value. -/
def isStripChar (c : Char) : Bool :=
  c == ' ' || c == '\t' || c == '\r' || c == '\x0b' || c == '\x0c'

/-- Python `str.strip` on one line: drop leading and trailing whitespace. -/
def stripChars (l : List Char) : List Char :=
  ((l.dropWhile isStripChar).reverse.dropWhile isStripChar).reverse

/-- Split a value at the newline separators between its written lines. -/
def splitLines : List Char → List (List Char)
  | [] => [[]]
  | c :: rest =>
    if c = '\n' then [] :: splitLines rest
    else
      match splitLines rest with
      | [] => [[c]]
      | line :: more => (c :: line) :: more

/-- Rejoin the lines of a value with newlines. -/
def joinLines : List (List Char) → List Char
  | [] => []
  | [l] => l
  | l :: ls => l ++ '\n' :: joinLines ls

/-- Modelled from `configparser` reading a stored value back from the file:
the value is reassembled from its lines, each stripped of surrounding
whitespace (`.strip()` per parsed line), joined with newlines. For a
single-line value this is exactly `strip`. -/
def normalizeValue (v : String) : String :=
  String.mk (joinLines ((splitLines v.toList).map stripChars))

/-- The values of one section as the parser holds them after reading the
file: each stored raw value normalized. -/
def readSection (d : ConfigData) : ConfigData :=
  d.map (fun p => (p.1, normalizeValue p.2))

/-- All sections as parsed from the file. -/
def readSections (ss : List (String × ConfigData)) : List (String × ConfigData) :=
  ss.map (fun s => (s.1, readSection s.2))

/-- Section lookup `config[name]` on the parsed sections. -/
def lookupSection : List (String × ConfigData) → String → Option ConfigData
  | [], _ => none
  | (n, d) :: t, name => if n == name then some d else lookupSection t name

/-- The interpolation recursion allowance (configparser's
MAX_INTERPOLATION_DEPTH). -/
def maxInterpolationDepth : Nat := 10

/-- Modelled from the KEYCRE regex `%\(([^)]+)\)s` matched at the head:
given the characters after a `%(`, return the nonempty reference name
(everything before the first `)`, which must be followed by `s`) and the
characters after the match; `acc` holds the name characters read so far,
reversed. The returned suffix carries the length bound used for
termination of the interpolation scanner. -/
def splitRef : List Char → (l : List Char) → Option (List Char × { r : List Char // r.length < l.length })
  | _, [] => none
  | acc, ')' :: 's' :: rest2 =>
    if acc.isEmpty then none
    else some (acc.reverse, ⟨rest2, by simp [List.length_cons]; omega⟩)
  | _, ')' :: _ => none
  | acc, c :: rest =>
    match splitRef (c :: acc) rest with
    | none => none
    | some (name, ⟨r, hr⟩) => some (name, ⟨r, by simp [List.length_cons]; omega⟩)

/-- Modelled from BasicInterpolation._interpolate_some, which `before_get`
runs on every value read from the section: scan the raw value; `%%` yields a
literal `%`; `%(name)s` looks the (lowercased) name up in the section map
and splices its value in, recursing when that value itself contains `%`
(the library bounds this recursion by MAX_INTERPOLATION_DEPTH, modelled by
`fuel`); any other `%` raises InterpolationSyntaxError, and a missing
referenced option raises InterpolationMissingOptionError. -/
def interpSome (mp : ConfigData) : (fuel : Nat) → (chars : List Char) → Except String (List Char)
  | _, [] => Except.ok []
  | fuel, c :: rest =>
    if c = '%' then
      match rest with
      | '%' :: rest2 =>
        match interpSome mp fuel rest2 with
        | Except.error e => Except.error e
        | Except.ok t => Except.ok ('%' :: t)
      | '(' :: rest2 =>
        match splitRef [] rest2 with
        | none => Except.error "InterpolationSyntaxError"
        | some (name, ⟨rest3, _h3⟩) =>
          match lookupKey mp (String.mk (name.map Char.toLower)) with
          | none => Except.error "InterpolationMissingOptionError"
          | some v =>
            if v.toList.contains '%' then
              match fuel with
              | 0 => Except.error "InterpolationDepthError"
              | fuel2 + 1 =>
                match interpSome mp fuel2 v.toList with
                | Except.error e => Except.error e
                | Except.ok expanded =>
                  match interpSome mp (fuel2 + 1) rest3 with
                  | Except.error e => Except.error e
                  | Except.ok t => Except.ok (expanded ++ t)
            else
              match interpSome mp fuel rest3 with
              | Except.error e => Except.error e
              | Except.ok t => Except.ok (v.toList ++ t)
      | _ => Except.error "InterpolationSyntaxError"
    else
      match interpSome mp fuel rest with
      | Except.error e => Except.error e
      | Except.ok t => Except.ok (c :: t)
termination_by fuel chars => (fuel, chars.length)
decreasing_by
  all_goals simp_wf
  all_goals
    first
    | (apply Prod.Lex.left; omega)
    | (apply Prod.Lex.right; omega)

/-- The read `config['config'][k]` as the program performs it: look the raw
value up, then apply `before_get` interpolation over the section map. -/
def getKey (data : ConfigData) (k : String) : Option (Except String String) :=
  match lookupKey data k with
  | none => none
  | some raw =>
    match interpSome data maxInterpolationDepth raw.toList with
    | Except.error e => some (Except.error e)
    | Except.ok cs => some (Except.ok (String.mk cs))

/-- Models the startup logging loop `for key in config['config']` (lines
35-36), whose f-string reads `config['config'][key]`: each read applies
`before_get` interpolation to the stored raw value over the section map;
the first interpolation error raised, if any. Dict keys are unique, so the
value paired with each key is the value its read returns. -/
def firstGetError (mp : ConfigData) : List (String × String) → Option String
  | [] => none
  | (_, raw) :: t =>
    match interpSome mp maxInterpolationDepth raw.toList with
    | Except.error e => some e
    | Except.ok _ => firstGetError mp t

/-- Result of `initial_config`: the loaded section together with the
resulting file state, or the exception the function raises — KeyError at
`config['config']` (line 35) when the read file has no `config` section
(for instance an existing empty file), or an interpolation error from the
logging reads. -/
inductive LoadResult where
  | ok (cfg : ConfigData) (file : ConfigFile)
  | raisedKeyError
  | raisedInterpolation (msg : String)
deriving DecidableEq, Repr

/-- Embeds `initial_config` (lines 18-37). `config.read(path)` returns an
empty (falsy) list only when the file does not exist; for an existing file
— even an empty one — it returns the parsed filename, which is truthy.
Contrary to the comment at line 29, an existing empty file therefore takes
the else branch. On a missing file the defaults are installed and saved;
otherwise the parser holds the sections read from the file (values
normalized), and `config['config']` raises KeyError when no such section
was parsed. In both branches the final loop reads every value back, so an
interpolation error there propagates. -/
def initial_config (file : ConfigFile) : LoadResult :=
  match file with
  | ConfigFile.missing =>
    match firstGetError defaultConfig defaultConfig with
    | some e => LoadResult.raisedInterpolation e
    | none => LoadResult.ok defaultConfig (save_config defaultConfig)
  | ConfigFile.present secs =>
    match lookupSection (readSections secs) "config" with
    | none => LoadResult.raisedKeyError
    | some data =>
      match firstGetError data data with
      | some e => LoadResult.raisedInterpolation e
      | none => LoadResult.ok data file

/-- One operation issued over the VISA transport. `write` and `readRaw` are
the session calls made by the capture driver; `openR` and `closeR` are the
resource-manager calls that change which sessions are open. -/
inductive VisaOp where
  | write (cmd : String)
  | readRaw
  | openR (addr : String)
  | closeR (addr : String)
deriving DecidableEq, Repr

/-- The set of open sessions under one resource manager (backend handle):
the addresses returned by `rm.list_opened_resources()`, in open order. -/
structure RMState where
  opened : List String
deriving DecidableEq, Repr

/-- Effect of one VISA operation on the open-session state of a resource
manager: opening appends a session, closing removes it, and `write` /
`readRaw` leave the open-session state untouched. -/
def opEffect (rm : RMState) (op : VisaOp) : RMState :=
  match op with
  | VisaOp.openR addr => { opened := rm.opened ++ [addr] }
  | VisaOp.closeR addr => { opened := rm.opened.filter (fun a => a != addr) }
  | VisaOp.write _ => rm
  | VisaOp.readRaw => rm

/-- A stubbed instrument session for the capture driver: `payload` is what
`read_raw()` delivers, and `failAt` is the index (0-based, over the
operations the driver issues) of the first transport call that raises, if
any. After a raise no further operation runs (Python exception semantics),
so a single first failure point covers every transport-error behaviour of
one straight-line run. -/
structure FSession where
  payload : Bytes
  failAt : Option Nat
deriving DecidableEq, Repr

/-- Run a straight-line sequence of transport operations over a stubbed
session: the operation whose index hits the session's failure point raises,
aborting the rest; `readRaw` returns the session payload. Yields the bytes
read and the operations actually issued on success, or the operations issued
up to and including the raising one on error. -/
def runVisaAux (s : FSession) :
    List VisaOp → Nat → List VisaOp → List Bytes →
      Except (List VisaOp) (List Bytes × List VisaOp)
  | [], _, issued, reads => Except.ok (reads, issued)
  | op :: rest, i, issued, reads =>
    if s.failAt == some i then Except.error (issued ++ [op])
    else
      match op with
      | VisaOp.readRaw => runVisaAux s rest (i + 1) (issued ++ [op]) (reads ++ [s.payload])
      | _ => runVisaAux s rest (i + 1) (issued ++ [op]) reads

/-- Run a command sequence from the start of a session. -/
def runVisa (s : FSession) (ops : List VisaOp) :
    Except (List VisaOp) (List Bytes × List VisaOp) :=
  runVisaAux s ops 0 [] []

/-- The setup command built by `prtscrmacro` (scope_capture.py line 164):
the f-string `HCSU DEV, JPEG, BCKG, {background}, AREA, GRIDAREAONLY, PORT,
NET` with the configured background substituted. -/
def hcsucmd (background : String) : String :=
  "HCSU DEV, JPEG, BCKG, " ++ background ++ ", AREA, GRIDAREAONLY, PORT, NET"

/-- Embeds `savemacro`: the photo bytes are written verbatim to the output
file, so the file content is exactly the argument. -/
def savem (photo : Bytes) : Bytes :=
  photo

/-- Result of one press of the Print Screen button. `keyError` models
`cfg['config']['background']` raising on a missing key; `transportError`
carries the operations issued before the raise propagated; `ok` carries the
bytes delivered to the save step and the full operation trace. -/
inductive CaptureOutcome where
  | keyError
  | transportError (issued : List VisaOp)
  | ok (saved : Bytes) (issued : List VisaOp)
deriving DecidableEq, Repr

/-- Embeds `prtscrmacro` (scope_capture.py lines 163-168), run against the
transport the handle `oscope` denotes: build the setup command from the
configured background, write it, write `SCDP`, `read_raw()` the payload, and
hand the bytes read to `savemacro`. No step is retried and no step is
guarded: any transport error propagates. -/
def prtscrm (cfg : ConfigData) (s : FSession) : CaptureOutcome :=
  match lookupKey cfg "background" with
  | none => CaptureOutcome.keyError
  | some bg =>
    match runVisa s [VisaOp.write (hcsucmd bg), VisaOp.write "SCDP", VisaOp.readRaw] with
    | Except.error issued => CaptureOutcome.transportError issued
    | Except.ok (reads, issued) =>
      match reads with
      | [capture] => CaptureOutcome.ok (savem capture) issued
      | _ => CaptureOutcome.transportError issued
      -- the fixed sequence holds exactly one readRaw, so only the first
      -- branch is reachable on success

/-- Embeds the close-all loop of `tryconnect` (scope_capture.py lines
96-98): `for addr in rm.list_opened_resources(): addr.close()`, one close
per listed open session. -/
def closeAllOpened (rm : RMState) : RMState :=
  rm.opened.foldl (fun r a => opEffect r (VisaOp.closeR a)) rm

/-- Embeds `tryconnect` restricted to the resource-manager state (lines
93-110): close every open session, then attempt
`rm.open_resource(cfg['config']['instrumentaddr'])`; `succeeds` records
whether that backend call raises. On success the new session is opened; on
failure nothing is open and `oscope` is reset to the placeholder. -/
def tryconnect (rm : RMState) (addr : String) (succeeds : Bool) : RMState :=
  let rm1 := closeAllOpened rm
  if succeeds then { opened := rm1.opened ++ [addr] } else rm1

/-- The visible outcome of `loadvisa` (scope_capture.py lines 74-91):
the returned resource manager (or `None`), the resource list, and the two
status indicators. -/
structure LoadVisaResult where
  rm : Option RMState
  resources : List String
  visastatus : Bool
  visastatustext : String
deriving DecidableEq, Repr

/-- Embeds `loadvisa`: the backend initialization plus enumeration either
raises (`Except.error`) or yields a manager and its resource list. The
`try/except/else/finally` returns `(None, [])` with status DOWN on any
exception, and the manager with status UP otherwise; the `finally: return`
means nothing ever propagates to the caller. -/
def loadvisa (backend : Except String (RMState × List String)) : LoadVisaResult :=
  match backend with
  | Except.error _ =>
    { rm := none, resources := [], visastatus := false, visastatustext := "VISA: DOWN" }
  | Except.ok (rm, resources) =>
    { rm := some rm, resources := resources, visastatus := true, visastatustext := "VISA: UP" }

/-- A value the name `oscope` can denote: the placeholder class
`pyvisa.Resource` (assigned at scope_capture.py line 72, and inside
`tryconnect` at line 103), or an open session to one address. -/
inductive Handle where
  | placeholder
  | session (addr : String)
deriving DecidableEq, Repr

/-- The bindings of `main` relevant to connection and capture: the
enclosing-scope `oscope` variable and the resource-manager state. -/
structure MainEnv where
  oscopeMain : Handle
  rm : RMState
deriving DecidableEq, Repr

/-- The state of `main` right after `oscope = pyvisa.Resource` (line 72),
before any connect. -/
def initMainEnv : MainEnv :=
  { oscopeMain := Handle.placeholder, rm := { opened := [] } }

/-- Embeds one full `tryconnect` call as seen from `main`. The function body
assigns `oscope = rm.open_resource(...)` (line 100) or `oscope =
pyvisa.Resource` (line 103) without a `nonlocal oscope` declaration, so under
Python scoping both assignments bind a variable local to `tryconnect`; the
enclosing `oscope` binding of `main` is never rebound. Only the
resource-manager state changes. -/
def tryconnectFromMain (env : MainEnv) (addr : String) (succeeds : Bool) : MainEnv :=
  { oscopeMain := env.oscopeMain, rm := tryconnect env.rm addr succeeds }

/-- The handle `prtscrmacro` issues its writes and its read over: the
`oscope` it closes over, which is `main`'s enclosing binding (line 72). -/
def captureHandle (env : MainEnv) : Handle :=
  env.oscopeMain

/-- The GUI-facing state of `main`: the in-memory settings, the
configuration file on disk, and the four display variables (`imagepath`,
`imagename`, `bckg`, `target` StringVars). -/
structure GuiState where
  cfg : ConfigData
  file : ConfigFile
  imagepathVar : String
  imagenameVar : String
  bckgVar : String
  targetVar : String
deriving DecidableEq, Repr

/-- The GUI state right after startup from the default configuration. -/
def initGuiState : GuiState :=
  { cfg := defaultConfig, file := save_config defaultConfig,
    imagepathVar := "C:\\Users\\Public\\Pictures",
    imagenameVar := "screencapture.jpeg",
    bckgVar := "WHITE",
    targetVar := "USB0::TEMPLATE" }

/-- Embeds `choose_savedir` (scope_capture.py lines 149-152): the picked
directory replaces the `imagepath` display variable, then `change_config`
updates the in-memory settings; `change_config` itself raises ValueError for
a directory containing a stray `%`, leaving the settings unchanged. No
`save_config` call occurs either way. The Bool records whether the handler
raised. -/
def choose_savedir (s : GuiState) (newdir : String) : GuiState × Bool :=
  match change_config s.cfg "imagepath" newdir with
  | Except.ok cfg2 => ({ s with imagepathVar := newdir, cfg := cfg2 }, false)
  | Except.error _ => ({ s with imagepathVar := newdir }, true)

/-- Embeds the background radiobutton callbacks (lines 143-144): the radio
variable takes the chosen value and `change_config` updates the in-memory
background; no file write. The Bool records whether the handler raised. -/
def chooseBackground (s : GuiState) (color : String) : GuiState × Bool :=
  match change_config s.cfg "background" color with
  | Except.ok cfg2 => ({ s with bckgVar := color, cfg := cfg2 }, false)
  | Except.error _ => ({ s with bckgVar := color }, true)

/-- Embeds selecting an instrument address in the option menu (lines
112-115 and 135). A ttk.OptionMenu menu entry first sets the `target`
variable to the selected value and then invokes the registered command with
that value as an argument; `settarget` is declared with no parameters, so
that invocation raises TypeError before the function body runs — the
`change_config(cfg, 'instrumentaddr', ...)` inside `settarget` is never
executed and the in-memory settings keep their old address. (With a
nonempty discovered-resource list, the `ttk.OptionMenu(connframe,
variable=target, *resources, command=settarget)` call at line 135 itself
raises TypeError at startup — variable passed twice — so the menu then
never exists at all.) The Bool records that the callback raised. -/
def settarget (s : GuiState) (addr : String) : GuiState × Bool :=
  ({ s with targetVar := addr }, true)

/-- Embeds an edit of the filename entry (lines 177-180): typing changes
only the `imagename` StringVar; nothing copies it into the settings and
nothing writes the file. -/
def editImagename (s : GuiState) (newname : String) : GuiState :=
  { s with imagenameVar := newname }

/-- Outcome of the cleanup block after `root.mainloop()`: the resulting file
state, whether the `save_config` line was reached, and whether the block
raised. -/
structure ShutdownResult where
  file : ConfigFile
  saveReached : Bool
  raised : Bool
deriving DecidableEq, Repr

/-- Embeds the cleanup after `root.mainloop()` (scope_capture.py lines
190-193): iterate `rm.list_opened_resources()` closing each session,
`rm.close()`, then `save_config(cfg, cfgpath)`. When discovery failed, `rm`
is `None`, so `rm.list_opened_resources()` raises AttributeError on the
first line and `save_config` is never reached: the file keeps its previous
content. -/
def shutdownCleanup (rm : Option RMState) (cfg : ConfigData) (file : ConfigFile) :
    ShutdownResult :=
  match rm with
  | none => { file := file, saveReached := false, raised := true }
  | some _ => { file := save_config cfg, saveReached := true, raised := false }

/-! Helper lemmas. -/

/-- Looking up a key right after setting it yields the new value. -/
theorem lookupKey_setKey (cfg : ConfigData) (k v : String) :
    lookupKey (setKey cfg k v) k = some v := by
  induction cfg with
  | nil => simp [setKey, lookupKey]
  | cons p t ih =>
    obtain ⟨k', v'⟩ := p
    by_cases h : k' == k
    · simp [setKey, h, lookupKey]
    · simp [setKey, h, lookupKey, ih]

/-- Every entry of an updated section is an old entry or the new pair. -/
theorem mem_setKey (cfg : ConfigData) (k v : String) (p : String × String)
    (hp : p ∈ setKey cfg k v) : p ∈ cfg ∨ p = (k, v) := by
  induction cfg with
  | nil =>
    simp [setKey] at hp
    exact Or.inr hp
  | cons q t ih =>
    obtain ⟨k1, v1⟩ := q
    by_cases hq : (k1 == k) = true
    · simp [setKey, hq] at hp
      rcases hp with h | h
      · exact Or.inr (by simp [h])
      · exact Or.inl (List.mem_cons_of_mem _ h)
    · simp [setKey, hq] at hp
      rcases hp with h | h
      · exact Or.inl (by simp [h])
      · rcases ih h with h2 | h2
        · exact Or.inl (List.mem_cons_of_mem _ h2)
        · exact Or.inr h2

/-- Removing escaped percent pairs does nothing to a percent-free value. -/
theorem dropEscapedPercents_of_percentFree (l : List Char) (h : ¬ '%' ∈ l) :
    dropEscapedPercents l = l := by
  induction l with
  | nil => rfl
  | cons c rest ih =>
    have hc : ¬ c = '%' := fun e => h (by simp [e])
    have hr : ¬ '%' ∈ rest := fun hm => h (List.mem_cons_of_mem c hm)
    cases rest with
    | nil => rfl
    | cons d rest2 =>
      have hcd : ¬ (c = '%' ∧ d = '%') := fun hpair => hc hpair.1
      simp [dropEscapedPercents, hcd, ih hr]

/-- The stray-percent scanner accepts any percent-free value. -/
theorem pctScan_of_percentFree (l : List Char) (h : ¬ '%' ∈ l) :
    pctScan PctState.normal l = true := by
  induction l with
  | nil => rfl
  | cons c rest ih =>
    have hc : ¬ c = '%' := fun e => h (by simp [e])
    have hr : ¬ '%' ∈ rest := fun hm => h (List.mem_cons_of_mem c hm)
    simp [pctScan, pctStep, hc, ih hr]

/-- before_set accepts any percent-free value. -/
theorem before_set_ok_of_percentFree (v : String) (h : ¬ '%' ∈ v.toList) :
    before_set_ok v = true := by
  unfold before_set_ok
  rw [dropEscapedPercents_of_percentFree v.toList h]
  exact pctScan_of_percentFree v.toList h

/-- Setting a percent-free value succeeds and stores it raw. -/
theorem change_config_of_percentFree (cfg : ConfigData) (k v : String)
    (h : ¬ '%' ∈ v.toList) :
    change_config cfg k v = Except.ok (setKey cfg k v) := by
  simp [change_config, before_set_ok_of_percentFree v h]

/-- Interpolation is the identity on a percent-free value. -/
theorem interpSome_of_percentFree (mp : ConfigData) (fuel : Nat) (l : List Char)
    (h : ¬ '%' ∈ l) : interpSome mp fuel l = Except.ok l := by
  induction l with
  | nil => rw [interpSome.eq_def]
  | cons c rest ih =>
    have hc : ¬ c = '%' := fun e => h (by simp [e])
    have hr : ¬ '%' ∈ rest := fun hm => h (List.mem_cons_of_mem c hm)
    rw [interpSome.eq_def]
    simp [hc, ih hr]

/-- The logging loop raises nothing over percent-free values. -/
theorem firstGetError_none (mp : ConfigData) (l : List (String × String))
    (h : ∀ p ∈ l, ¬ '%' ∈ p.2.toList) : firstGetError mp l = none := by
  induction l with
  | nil => rfl
  | cons p t ih =>
    obtain ⟨k0, raw⟩ := p
    have h1 : ¬ '%' ∈ raw.toList := h (k0, raw) (List.mem_cons_self _ _)
    have h2 : ∀ q ∈ t, ¬ '%' ∈ q.2.toList := fun q hq => h q (List.mem_cons_of_mem _ hq)
    have hint := interpSome_of_percentFree mp maxInterpolationDepth raw.toList h1
    simp only [firstGetError, hint, ih h2]

/-- Reading back a section whose values the per-line strip does not change
returns it unchanged. -/
theorem readSection_id (d : ConfigData) (h : ∀ p ∈ d, normalizeValue p.2 = p.2) :
    readSection d = d := by
  induction d with
  | nil => rfl
  | cons p t ih =>
    have h1 := h p (List.mem_cons_self _ _)
    have h2 : ∀ q ∈ t, normalizeValue q.2 = q.2 :=
      fun q hq => h q (List.mem_cons_of_mem _ hq)
    show (p.1, normalizeValue p.2) :: readSection t = p :: t
    rw [h1, Prod.mk.eta, ih h2]

/-- Rebuilding a string from its character list is the identity. -/
theorem stringMk_toList (s : String) : String.mk s.toList = s := rfl

/-- A percent-free stored value is returned exactly by the section read. -/
theorem getKey_of_percentFree (data : ConfigData) (k raw : String)
    (hl : lookupKey data k = some raw) (h : ¬ '%' ∈ raw.toList) :
    getKey data k = some (Except.ok raw) := by
  have hint := interpSome_of_percentFree data maxInterpolationDepth raw.toList h
  simp only [getKey, hl, hint, stringMk_toList]

/-- Any session surviving the close-each-listed-resource loop was open
before the loop and is not among the addresses the loop closed. -/
theorem mem_foldl_closeR (l : List String) (r : RMState) (x : String)
    (hx : x ∈ (l.foldl (fun r a => opEffect r (VisaOp.closeR a)) r).opened) :
    x ∈ r.opened ∧ x ∉ l := by
  induction l generalizing r with
  | nil => exact ⟨hx, by simp⟩
  | cons a l ih =>
    have h := ih (opEffect r (VisaOp.closeR a)) hx
    rcases h with ⟨hmem, hnot⟩
    simp only [opEffect, List.mem_filter, bne_iff_ne, ne_eq, decide_eq_true_eq] at hmem
    exact ⟨hmem.1, by simp [hmem.2, hnot]⟩

/-- The close-all loop of `tryconnect` leaves no session open. -/
theorem closeAllOpened_opened (rm : RMState) : (closeAllOpened rm).opened = [] := by
  rcases h : (closeAllOpened rm).opened with _ | ⟨x, t⟩
  · rfl
  · have hx : x ∈ (closeAllOpened rm).opened := by simp [h]
    have := mem_foldl_closeR rm.opened rm x hx
    exact absurd this.1 this.2

/-- Resource-manager states agreeing on their open sessions are equal. -/
theorem rmStateEq (r1 r2 : RMState) (h : r1.opened = r2.opened) : r1 = r2 := by
  cases r1; cases r2; simpa using h

/-- A connect attempt ends with exactly the new session open on success and
nothing open on failure, whatever was open before. -/
theorem tryconnect_eq (rm : RMState) (addr : String) (b : Bool) :
    tryconnect rm addr b =
      if b then { opened := [addr] } else { opened := [] } := by
  cases b <;> exact rmStateEq _ _ (by simp [tryconnect, closeAllOpened_opened])

/-- After any single connect attempt at most one session is open. -/
theorem tryconnect_opened_length (rm : RMState) (addr : String) (b : Bool) :
    (tryconnect rm addr b).opened.length ≤ 1 := by
  rw [tryconnect_eq]
  cases b <;> simp

/-- Folding further connect attempts preserves the at-most-one bound. -/
theorem foldl_tryconnect_length (calls : List (String × Bool)) (r : RMState)
    (hr : r.opened.length ≤ 1) :
    (calls.foldl (fun r c => tryconnect r c.1 c.2) r).opened.length ≤ 1 := by
  induction calls generalizing r with
  | nil => exact hr
  | cons c calls ih => exact ih _ (tryconnect_opened_length r c.1 c.2)

/-- No sequence of `tryconnect` calls ever rebinds `main`'s `oscope`. -/
theorem foldl_tryconnectFromMain_oscope (calls : List (String × Bool)) (env : MainEnv) :
    (calls.foldl (fun e c => tryconnectFromMain e c.1 c.2) env).oscopeMain =
      env.oscopeMain := by
  induction calls generalizing env with
  | nil => rfl
  | cons c calls ih => exact ih _

/-! Theorems for the individual claims of the specification. -/

/-- C1: for every background value and every stubbed session payload, a
capture over a healthy transport issues exactly two writes (setup then
trigger) followed by exactly one raw read, and the bytes delivered for
saving are exactly the bytes that read returned, unmodified. -/
theorem capture_two_writes_one_read_passthrough (cfg : ConfigData) (bg : String)
    (payload : Bytes) (h : lookupKey cfg "background" = some bg) :
    prtscrm cfg { payload := payload, failAt := none } =
      CaptureOutcome.ok payload
        [VisaOp.write (hcsucmd bg), VisaOp.write "SCDP", VisaOp.readRaw] := by
  simp [prtscrm, h, runVisa, runVisaAux, savem]

/-- Witness for C1: capture of the minimal JPEG payload FF D8 FF D9 under
the default configuration. -/
theorem capture_two_writes_one_read_passthrough_witness :
    prtscrm defaultConfig { payload := [255, 216, 255, 217], failAt := none } =
      CaptureOutcome.ok [255, 216, 255, 217]
        [VisaOp.write (hcsucmd "WHITE"), VisaOp.write "SCDP", VisaOp.readRaw] :=
  capture_two_writes_one_read_passthrough defaultConfig "WHITE" [255, 216, 255, 217] rfl

/-- C2: for backgrounds BLACK and WHITE the setup command is exactly
`HCSU DEV, JPEG, BCKG, <B>, AREA, GRIDAREAONLY, PORT, NET`, it contains the
exact substring `BCKG, <B>`, and the command written second in a capture is
exactly `SCDP`. -/
theorem setup_and_trigger_commands_exact :
    hcsucmd "BLACK" = "HCSU DEV, JPEG, BCKG, BLACK, AREA, GRIDAREAONLY, PORT, NET" ∧
    hcsucmd "WHITE" = "HCSU DEV, JPEG, BCKG, WHITE, AREA, GRIDAREAONLY, PORT, NET" ∧
    (∃ pre post, hcsucmd "BLACK" = pre ++ ("BCKG, BLACK" ++ post)) ∧
    (∃ pre post, hcsucmd "WHITE" = pre ++ ("BCKG, WHITE" ++ post)) ∧
    (∀ (b : String) (payload : Bytes),
      prtscrm [("background", b)] { payload := payload, failAt := none } =
        CaptureOutcome.ok payload
          [VisaOp.write (hcsucmd b), VisaOp.write "SCDP", VisaOp.readRaw]) := by
  refine ⟨rfl, rfl,
    ⟨"HCSU DEV, JPEG, ", ", AREA, GRIDAREAONLY, PORT, NET", rfl⟩,
    ⟨"HCSU DEV, JPEG, ", ", AREA, GRIDAREAONLY, PORT, NET", rfl⟩, ?_⟩
  intro b payload
  exact capture_two_writes_one_read_passthrough [("background", b)] b payload rfl

/-- C3: every connect call behaves as if it first closed all open sessions
under the backend, and after any nonempty sequence of connect calls at most
one session is open for that backend handle. -/
theorem connect_at_most_one_session (rm : RMState) (addr : String) (b : Bool)
    (calls : List (String × Bool)) :
    tryconnect rm addr b = tryconnect (closeAllOpened rm) addr b ∧
    (calls.foldl (fun r c => tryconnect r c.1 c.2) (tryconnect rm addr b)).opened.length ≤ 1 := by
  constructor
  · rw [tryconnect_eq, tryconnect_eq]
  · exact foldl_tryconnect_length calls _ (tryconnect_opened_length rm addr b)

/-- C4 evidence: an existing-but-empty configuration file is truthy for
`config.read`, so the else branch runs and `config['config']` raises
KeyError — no defaults are installed and no file is written; only a missing
file installs and saves the four documented defaults. -/
theorem empty_file_raises_missing_installs_defaults :
    initial_config (ConfigFile.present []) = LoadResult.raisedKeyError ∧
    initial_config ConfigFile.missing =
      LoadResult.ok defaultConfig (save_config defaultConfig) ∧
    defaultConfig.map Prod.fst =
      ["background", "imagepath", "imagename", "instrumentaddr"] ∧
    lookupKey defaultConfig "background" = some "WHITE" ∧
    lookupKey defaultConfig "imagepath" = some "C:\\Users\\Public\\Pictures" ∧
    lookupKey defaultConfig "imagename" = some "screencapture.jpeg" ∧
    lookupKey defaultConfig "instrumentaddr" = some "USB0::TEMPLATE" := by
  have hfge : firstGetError defaultConfig defaultConfig = none :=
    firstGetError_none _ _ (by decide)
  exact ⟨rfl, by simp [initial_config, hfge], rfl, rfl, rfl, rfl, rfl⟩

/-- C5 counterexample: the round trip fails as stated — setting the value
`50%` raises ValueError (stray percent), and the padded value `  BLACK  `
survives the set but loads back whitespace-stripped as `BLACK`, not as the
value that was set. -/
theorem roundtrip_fails_for_percent_and_padded_values :
    change_config defaultConfig "background" "50%" = Except.error "ValueError" ∧
    change_config defaultConfig "background" "  BLACK  " =
      Except.ok (setKey defaultConfig "background" "  BLACK  ") ∧
    initial_config (save_config (setKey defaultConfig "background" "  BLACK  ")) =
      LoadResult.ok (setKey defaultConfig "background" "BLACK")
        (save_config (setKey defaultConfig "background" "  BLACK  ")) ∧
    getKey (setKey defaultConfig "background" "BLACK") "background" =
      some (Except.ok "BLACK") ∧
    "BLACK" ≠ "  BLACK  " := by
  refine ⟨rfl, rfl, ?_, ?_, by decide⟩
  · have hid : readSection (setKey defaultConfig "background" "  BLACK  ") =
        setKey defaultConfig "background" "BLACK" := rfl
    have hfge : firstGetError (setKey defaultConfig "background" "BLACK")
        (setKey defaultConfig "background" "BLACK") = none :=
      firstGetError_none _ _ (by decide)
    simp [initial_config, save_config, readSections, lookupSection, hid, hfge]
  · exact getKey_of_percentFree (setKey defaultConfig "background" "BLACK")
      "background" "BLACK" rfl (by decide)

/-- C5 amended: for any of the four documented keys and any value that
contains no `%` and is unchanged by the per-line whitespace strip, over
settings whose stored values satisfy the same two conditions, set followed
by save followed by a fresh load returns exactly the value that was set. -/
theorem set_save_load_roundtrip_normalized (cfg : ConfigData) (k v : String)
    (hk : k ∈ ["background", "imagepath", "imagename", "instrumentaddr"])
    (hv : ¬ '%' ∈ v.toList) (hvn : normalizeValue v = v)
    (hcfg : ∀ p ∈ cfg, ¬ '%' ∈ p.2.toList ∧ normalizeValue p.2 = p.2) :
    change_config cfg k v = Except.ok (setKey cfg k v) ∧
    initial_config (save_config (setKey cfg k v)) =
      LoadResult.ok (setKey cfg k v) (save_config (setKey cfg k v)) ∧
    getKey (setKey cfg k v) k = some (Except.ok v) := by
  have haux : ∀ p ∈ setKey cfg k v, ¬ '%' ∈ p.2.toList ∧ normalizeValue p.2 = p.2 := by
    intro p hp
    rcases mem_setKey cfg k v p hp with h | h
    · exact hcfg p h
    · subst h; exact ⟨hv, hvn⟩
  have hid : readSection (setKey cfg k v) = setKey cfg k v :=
    readSection_id _ (fun p hp => (haux p hp).2)
  have hfge : firstGetError (setKey cfg k v) (setKey cfg k v) = none :=
    firstGetError_none _ _ (fun p hp => (haux p hp).1)
  refine ⟨change_config_of_percentFree cfg k v hv, ?_, ?_⟩
  · simp [initial_config, save_config, readSections, lookupSection, hid, hfge]
  · exact getKey_of_percentFree (setKey cfg k v) k v (lookupKey_setKey cfg k v) hv

/-- Witness for the amended C5: round-tripping a new background under the
default configuration. -/
theorem set_save_load_roundtrip_normalized_witness :
    change_config defaultConfig "background" "BLACK" =
      Except.ok (setKey defaultConfig "background" "BLACK") ∧
    initial_config (save_config (setKey defaultConfig "background" "BLACK")) =
      LoadResult.ok (setKey defaultConfig "background" "BLACK")
        (save_config (setKey defaultConfig "background" "BLACK")) ∧
    getKey (setKey defaultConfig "background" "BLACK") "background" =
      some (Except.ok "BLACK") :=
  set_save_load_roundtrip_normalized defaultConfig "background" "BLACK"
    (by decide) (by decide) (by decide) (by decide)

/-- C6: whenever backend initialization or resource enumeration raises,
`loadvisa` returns no manager and an empty resource list, with the status
indicator DOWN; the total return type records that no exception propagates
to the caller. -/
theorem discover_failure_returns_none_empty (e : String) :
    loadvisa (Except.error e) =
      { rm := none, resources := [], visastatus := false,
        visastatustext := "VISA: DOWN" } := rfl

/-- C7 evidence: `main`'s `oscope` stays the placeholder class through every
sequence of connect attempts, so a capture after a successful connect to a
concrete address still runs over the placeholder, not the opened session. -/
theorem capture_handle_is_placeholder_not_session :
    (∀ calls : List (String × Bool),
      captureHandle (calls.foldl (fun e c => tryconnectFromMain e c.1 c.2) initMainEnv) =
        Handle.placeholder) ∧
    (tryconnectFromMain initMainEnv "USB0::1234::5678::INSTR" true).rm.opened =
      ["USB0::1234::5678::INSTR"] ∧
    captureHandle (tryconnectFromMain initMainEnv "USB0::1234::5678::INSTR" true) ≠
      Handle.session "USB0::1234::5678::INSTR" := by
  refine ⟨?_, rfl, by decide⟩
  intro calls
  exact foldl_tryconnectFromMain_oscope calls initMainEnv

/-- C8 counterexample: running the save-directory edit handler with a new
directory leaves the file on disk with the old `imagepath` value, so the
file does not reflect the edited value right after the handler. -/
theorem savedir_edit_leaves_file_stale :
    (choose_savedir initGuiState "D:\\captures").1.file = save_config defaultConfig ∧
    lookupKey defaultConfig "imagepath" = some "C:\\Users\\Public\\Pictures" ∧
    "C:\\Users\\Public\\Pictures" ≠ "D:\\captures" := by
  exact ⟨rfl, rfl, by decide⟩

/-- C8 amended: the background and save-path edit handlers update only the
in-memory settings and never write the configuration file; the filename edit
changes only its display variable; selecting an instrument address sets only
the GUI variable, its callback raising before `change_config` runs; the file
is written at shutdown (backend present), and then reflects the in-memory
settings. -/
theorem edits_in_memory_only_saved_at_shutdown (s : GuiState)
    (dir color addr name : String) (rm : RMState)
    (hdir : ¬ '%' ∈ dir.toList) (hcolor : ¬ '%' ∈ color.toList) :
    (choose_savedir s dir).1.file = s.file ∧
    (choose_savedir s dir).2 = false ∧
    lookupKey (choose_savedir s dir).1.cfg "imagepath" = some dir ∧
    (chooseBackground s color).1.file = s.file ∧
    (chooseBackground s color).2 = false ∧
    lookupKey (chooseBackground s color).1.cfg "background" = some color ∧
    (settarget s addr).1.file = s.file ∧
    (settarget s addr).1.cfg = s.cfg ∧
    (settarget s addr).2 = true ∧
    (editImagename s name).file = s.file ∧
    (editImagename s name).cfg = s.cfg ∧
    shutdownCleanup (some rm) s.cfg s.file =
      { file := save_config s.cfg, saveReached := true, raised := false } := by
  have h1 := change_config_of_percentFree s.cfg "imagepath" dir hdir
  have h2 := change_config_of_percentFree s.cfg "background" color hcolor
  refine ⟨?_, ?_, ?_, ?_, ?_, ?_, rfl, rfl, rfl, rfl, rfl, rfl⟩ <;>
    simp [choose_savedir, chooseBackground, h1, h2, lookupKey_setKey]

/-- Witness for the amended C8 at concrete inputs. -/
theorem edits_in_memory_only_saved_at_shutdown_witness :
    (choose_savedir initGuiState "D:\\pics").1.file = initGuiState.file ∧
    (choose_savedir initGuiState "D:\\pics").2 = false ∧
    lookupKey (choose_savedir initGuiState "D:\\pics").1.cfg "imagepath" =
      some "D:\\pics" ∧
    (chooseBackground initGuiState "BLACK").1.file = initGuiState.file ∧
    (chooseBackground initGuiState "BLACK").2 = false ∧
    lookupKey (chooseBackground initGuiState "BLACK").1.cfg "background" =
      some "BLACK" ∧
    (settarget initGuiState "USB0::1234::5678::INSTR").1.file = initGuiState.file ∧
    (settarget initGuiState "USB0::1234::5678::INSTR").1.cfg = initGuiState.cfg ∧
    (settarget initGuiState "USB0::1234::5678::INSTR").2 = true ∧
    (editImagename initGuiState "shot.jpeg").file = initGuiState.file ∧
    (editImagename initGuiState "shot.jpeg").cfg = initGuiState.cfg ∧
    shutdownCleanup (some { opened := [] }) initGuiState.cfg initGuiState.file =
      { file := save_config initGuiState.cfg, saveReached := true, raised := false } :=
  edits_in_memory_only_saved_at_shutdown initGuiState "D:\\pics" "BLACK"
    "USB0::1234::5678::INSTR" "shot.jpeg" { opened := [] } (by decide) (by decide)

/-- C9: whichever of the three capture steps the transport makes raise, the
error propagates as a capture failure with each step attempted at most once
and in order (the issued traces below), and replaying any issued trace over
the resource-manager state changes nothing: the driver leaves session state
unchanged. -/
theorem capture_error_propagates_without_retry (cfg : ConfigData) (bg : String)
    (payload : Bytes) (h : lookupKey cfg "background" = some bg) :
    prtscrm cfg { payload := payload, failAt := some 0 } =
      CaptureOutcome.transportError [VisaOp.write (hcsucmd bg)] ∧
    prtscrm cfg { payload := payload, failAt := some 1 } =
      CaptureOutcome.transportError [VisaOp.write (hcsucmd bg), VisaOp.write "SCDP"] ∧
    prtscrm cfg { payload := payload, failAt := some 2 } =
      CaptureOutcome.transportError
        [VisaOp.write (hcsucmd bg), VisaOp.write "SCDP", VisaOp.readRaw] ∧
    (∀ rm : RMState,
      List.foldl opEffect rm [VisaOp.write (hcsucmd bg)] = rm ∧
      List.foldl opEffect rm [VisaOp.write (hcsucmd bg), VisaOp.write "SCDP"] = rm ∧
      List.foldl opEffect rm
        [VisaOp.write (hcsucmd bg), VisaOp.write "SCDP", VisaOp.readRaw] = rm) := by
  refine ⟨?_, ?_, ?_, fun rm => ⟨rfl, rfl, rfl⟩⟩ <;>
    simp [prtscrm, h, runVisa, runVisaAux]

/-- Witness for C9: the three failure points exercised under the default
configuration with a three-byte payload. -/
theorem capture_error_propagates_without_retry_witness :
    prtscrm defaultConfig { payload := [1, 2, 3], failAt := some 0 } =
      CaptureOutcome.transportError [VisaOp.write (hcsucmd "WHITE")] ∧
    prtscrm defaultConfig { payload := [1, 2, 3], failAt := some 1 } =
      CaptureOutcome.transportError [VisaOp.write (hcsucmd "WHITE"), VisaOp.write "SCDP"] ∧
    prtscrm defaultConfig { payload := [1, 2, 3], failAt := some 2 } =
      CaptureOutcome.transportError
        [VisaOp.write (hcsucmd "WHITE"), VisaOp.write "SCDP", VisaOp.readRaw] ∧
    (∀ rm : RMState,
      List.foldl opEffect rm [VisaOp.write (hcsucmd "WHITE")] = rm ∧
      List.foldl opEffect rm [VisaOp.write (hcsucmd "WHITE"), VisaOp.write "SCDP"] = rm ∧
      List.foldl opEffect rm
        [VisaOp.write (hcsucmd "WHITE"), VisaOp.write "SCDP", VisaOp.readRaw] = rm) :=
  capture_error_propagates_without_retry defaultConfig "WHITE" [1, 2, 3] rfl

/-- C10: with the backend handle absent, the shutdown cleanup raises before
the save line, leaving the file exactly as it was (edits unpersisted); with
the handle present the save is reached and the file then holds the
in-memory settings. -/
theorem shutdown_absent_backend_skips_save (cfg : ConfigData) (file : ConfigFile) :
    shutdownCleanup none cfg file =
      { file := file, saveReached := false, raised := true } ∧
    (∀ rm : RMState,
      shutdownCleanup (some rm) cfg file =
        { file := save_config cfg, saveReached := true, raised := false }) :=
  ⟨rfl, fun _ => rfl⟩

end ScopeCapture
